import Mathlib

/-!
# Verification of the zeroclaw onboarding wizard core

Shallow embedding of `src/onboard/tui/{state,flow,events,finalize}.rs`
(the step-transition engine and the configuration-synthesis routine) and
of `src/onboard/shared.rs`'s interface surface.  External collaborators
(provider tables, model-catalog fetch, filesystem, hardware discovery,
memory-backend profiles, persistence) are modelled as an explicit
environment record `Env`, so that every wizard function is a pure function
of the environment and the answer store.
-/

namespace ZeroClaw

/-! ## String helpers

Rust string primitives used by the wizard, modelled on `List Char` so that
concrete evaluation stays kernel-friendly.  `text_value` is
`App::text_value` (first line of the text area, trimmed); `trimEndMatchesSlash`
is `str::trim_end_matches('/')`; `parse_list_csv` is `App::parse_list_csv`. -/

def trimChars (l : List Char) : List Char :=
  ((l.dropWhile Char.isWhitespace).reverse.dropWhile Char.isWhitespace).reverse

def strTrim (s : String) : String :=
  String.mk (trimChars s.data)

/-- `App::text_value`: the single line held by a text buffer, trimmed. -/
def text_value (s : String) : String := strTrim s

/-- `str::trim_end_matches('/')`: drop every trailing `'/'`. -/
def trimEndMatchesSlash (s : String) : String :=
  String.mk ((s.data.reverse.dropWhile (fun ch => ch = '/')).reverse)

def splitChar (c : Char) : List Char → List (List Char)
  | [] => [[]]
  | x :: xs =>
    let r := splitChar c xs
    if x = c then [] :: r
    else
      match r with
      | [] => [[x]]
      | y :: ys => (x :: y) :: ys

/-- `App::parse_list_csv`: split on `','`, trim each entry, drop empties. -/
def parse_list_csv (value : String) : List String :=
  ((splitChar ',' value.data).map (fun w => String.mk (trimChars w))).filter
    (fun s => s ≠ "")

/-- `str::parse::<u16>()`: optional leading `'+'`, decimal digits, bounded. -/
def parseU16 (s : String) : Option Nat :=
  let chars :=
    match s.data with
    | '+' :: rest => rest
    | other => other
  if chars = [] then none
  else if chars.all (fun ch => ch.isDigit) then
    let n := chars.foldl (fun acc ch => acc * 10 + (ch.toNat - 48)) 0
    if n ≤ 65535 then some n else none
  else none

/-- `Path::join` on string-modelled paths. -/
def pathJoin (dir file : String) : String := dir ++ "/" ++ file

/-! ## Data model (`state.rs`) -/

def CUSTOM_MODEL_SENTINEL : String := "__custom_model__"

inductive OnboardingMode
  | FullOnboarding
  | UpdateProviderOnly
  deriving DecidableEq, Repr

inductive WizardStep
  | Welcome
  | ConfigModeSelection
  | WorkspaceSetup
  | ProviderTierSelection
  | ProviderSelection
  | CustomProviderUrlEntry
  | ProviderEndpointEntry
  | ApiKeyEntry
  | ModelSelection
  | ModelCustomEntry
  | ChannelSelection
  | ChannelTokenEntry
  | ChannelAuxEntry
  | TunnelSelection
  | TunnelPrimaryEntry
  | TunnelSecondaryEntry
  | ToolModeSelection
  | ComposioApiKeyEntry
  | SecretsEncryptChoice
  | HardwareSelection
  | MemorySelection
  | ProjectUserEntry
  | ProjectTimezoneEntry
  | ProjectAgentEntry
  | ProjectStyleSelection
  | ProjectStyleCustomEntry
  | Confirmation
  | Done
  deriving DecidableEq, Repr

inductive ChannelChoice
  | CliOnly
  | Telegram
  | Discord
  | Slack
  | IMessage
  | Matrix
  | Signal
  | WhatsApp
  | Linq
  | Irc
  | Webhook
  | NextcloudTalk
  | DingTalk
  | QqOfficial
  | Lark
  | Feishu
  | Nostr
  deriving DecidableEq, Repr

inductive TunnelChoice
  | None
  | Cloudflare
  | Tailscale
  | Ngrok
  | Custom
  deriving DecidableEq, Repr

inductive ToolModeChoice
  | Sovereign
  | Composio
  deriving DecidableEq, Repr

/-! ## Channel sub-configs (`config::schema`, as constructed in `flow.rs`)

The schema module itself is not under `src/`; the structures below carry
exactly the fields the wizard populates in `apply_channel_token` /
`tunnel_config`. -/

/-- Modelled from the spec: `StreamMode` lives in the config schema, which is
not under src/; only its `default()` value is used by the wizard. -/
inductive StreamMode
  | defaultMode
  deriving DecidableEq, Repr

def StreamMode.default : StreamMode := .defaultMode

/-- Modelled from the spec: `LarkReceiveMode` lives in the config schema,
which is not under src/; the wizard only constructs `Websocket`. -/
inductive LarkReceiveMode
  | Websocket
  deriving DecidableEq, Repr

structure TelegramConfig where
  bot_token : String
  allowed_users : List String
  stream_mode : StreamMode
  draft_update_interval_ms : Nat
  interrupt_on_new_message : Bool
  mention_only : Bool
  deriving DecidableEq, Repr

structure DiscordConfig where
  bot_token : String
  guild_id : Option String
  allowed_users : List String
  listen_to_bots : Bool
  mention_only : Bool
  deriving DecidableEq, Repr

structure SlackConfig where
  bot_token : String
  app_token : Option String
  channel_id : Option String
  allowed_users : List String
  deriving DecidableEq, Repr

structure WebhookConfig where
  port : Nat
  secret : Option String
  deriving DecidableEq, Repr

structure IMessageConfig where
  allowed_contacts : List String
  deriving DecidableEq, Repr

structure MatrixConfig where
  homeserver : String
  access_token : String
  user_id : Option String
  device_id : Option String
  room_id : String
  allowed_users : List String
  deriving DecidableEq, Repr

structure SignalConfig where
  http_url : String
  account : String
  group_id : Option String
  allowed_from : List String
  ignore_attachments : Bool
  ignore_stories : Bool
  deriving DecidableEq, Repr

structure WhatsAppConfig where
  access_token : Option String
  phone_number_id : Option String
  verify_token : Option String
  app_secret : Option String
  session_path : Option String
  pair_phone : Option String
  pair_code : Option String
  allowed_numbers : List String
  deriving DecidableEq, Repr

structure LinqConfig where
  api_token : String
  from_phone : String
  signing_secret : Option String
  allowed_senders : List String
  deriving DecidableEq, Repr

structure IrcConfig where
  server : String
  port : Nat
  nickname : String
  username : Option String
  channels : List String
  allowed_users : List String
  server_password : Option String
  nickserv_password : Option String
  sasl_password : Option String
  verify_tls : Option Bool
  deriving DecidableEq, Repr

structure NextcloudTalkConfig where
  base_url : String
  app_token : String
  webhook_secret : Option String
  allowed_users : List String
  deriving DecidableEq, Repr

structure DingTalkConfig where
  client_id : String
  client_secret : String
  allowed_users : List String
  deriving DecidableEq, Repr

structure QQConfig where
  app_id : String
  app_secret : String
  allowed_users : List String
  deriving DecidableEq, Repr

structure LarkConfig where
  app_id : String
  app_secret : String
  encrypt_key : Option String
  verification_token : Option String
  allowed_users : List String
  mention_only : Bool
  use_feishu : Bool
  receive_mode : LarkReceiveMode
  port : Option Nat
  deriving DecidableEq, Repr

structure FeishuConfig where
  app_id : String
  app_secret : String
  encrypt_key : Option String
  verification_token : Option String
  allowed_users : List String
  receive_mode : LarkReceiveMode
  port : Option Nat
  deriving DecidableEq, Repr

structure NostrConfig where
  private_key : String
  relays : List String
  allowed_pubkeys : List String
  deriving DecidableEq, Repr

structure ChannelsConfig where
  cli : Bool
  telegram : Option TelegramConfig
  discord : Option DiscordConfig
  slack : Option SlackConfig
  webhook : Option WebhookConfig
  imessage : Option IMessageConfig
  matrix : Option MatrixConfig
  signal : Option SignalConfig
  whatsapp : Option WhatsAppConfig
  linq : Option LinqConfig
  irc : Option IrcConfig
  nextcloud_talk : Option NextcloudTalkConfig
  dingtalk : Option DingTalkConfig
  qq : Option QQConfig
  lark : Option LarkConfig
  feishu : Option FeishuConfig
  nostr : Option NostrConfig
  deriving DecidableEq, Repr

/-- Modelled from the spec: `ChannelsConfig::default()` lives in the config
schema, which is not under src/ — "reset channel config to a fresh default":
no channel sub-config populated, CLI enabled. -/
def ChannelsConfig.default : ChannelsConfig where
  cli := true
  telegram := none
  discord := none
  slack := none
  webhook := none
  imessage := none
  matrix := none
  signal := none
  whatsapp := none
  linq := none
  irc := none
  nextcloud_talk := none
  dingtalk := none
  qq := none
  lark := none
  feishu := none
  nostr := none

/-- Modelled from the spec: `ChannelsConfig::channels_except_webhook` (schema,
not under src/) — presence of each channel other than the webhook channel;
`finalize_config` only asks whether any is configured. -/
def ChannelsConfig.anyExceptWebhook (c : ChannelsConfig) : Bool :=
  c.telegram.isSome || c.discord.isSome || c.slack.isSome || c.imessage.isSome ||
  c.matrix.isSome || c.signal.isSome || c.whatsapp.isSome || c.linq.isSome ||
  c.irc.isSome || c.nextcloud_talk.isSome || c.dingtalk.isSome || c.qq.isSome ||
  c.lark.isSome || c.feishu.isSome || c.nostr.isSome

/-! ## Tunnel / composio / secrets / hardware / memory sub-configs -/

structure CloudflareTunnelConfig where
  token : String
  deriving DecidableEq, Repr

structure TailscaleTunnelConfig where
  funnel : Bool
  hostname : Option String
  deriving DecidableEq, Repr

structure NgrokTunnelConfig where
  auth_token : String
  domain : Option String
  deriving DecidableEq, Repr

structure CustomTunnelConfig where
  start_command : String
  health_url : Option String
  url_pattern : Option String
  deriving DecidableEq, Repr

structure TunnelConfig where
  provider : String
  cloudflare : Option CloudflareTunnelConfig
  tailscale : Option TailscaleTunnelConfig
  ngrok : Option NgrokTunnelConfig
  custom : Option CustomTunnelConfig
  deriving DecidableEq, Repr

/-- Modelled from the spec: `TunnelConfig::default()` (schema, not under
src/) — provider tag with no populated provider-specific sub-struct. -/
def TunnelConfig.default : TunnelConfig where
  provider := "none"
  cloudflare := none
  tailscale := none
  ngrok := none
  custom := none

structure ComposioConfig where
  enabled : Bool
  api_key : Option String
  entity_id : String
  deriving DecidableEq, Repr

/-- Modelled from the spec: `ComposioConfig::default()` (schema, not under
src/) — Composio disabled, no key. -/
def ComposioConfig.default : ComposioConfig where
  enabled := false
  api_key := none
  entity_id := "default"

structure SecretsConfig where
  encrypt : Bool
  deriving DecidableEq, Repr

/-- Modelled from the spec: `HardwareConfig` (schema, not under src/) —
"discovered-device summary + mode + datasheets flag"; the wizard obtains it
from `hardware::config_from_wizard_choice` and then sets the datasheets
flag. -/
structure HardwareConfig where
  summary : String
  mode : String
  workspace_datasheets : Bool
  deriving DecidableEq, Repr

/-- Modelled from the spec: `QdrantConfig` (schema, not under src/); only its
`default()` value is used by the wizard. -/
structure QdrantConfig where
  defaultOnly : Unit
  deriving DecidableEq, Repr

def QdrantConfig.default : QdrantConfig := ⟨()⟩

structure MemoryBackendProfile where
  auto_save_default : Bool
  uses_sqlite_hygiene : Bool
  deriving DecidableEq, Repr

structure MemoryConfig where
  backend : String
  auto_save : Bool
  hygiene_enabled : Bool
  archive_after_days : Nat
  purge_after_days : Nat
  conversation_retention_days : Nat
  embedding_provider : String
  embedding_model : String
  embedding_dimensions : Nat
  vector_weight : ℚ
  keyword_weight : ℚ
  min_relevance_score : ℚ
  embedding_cache_size : Nat
  chunk_max_tokens : Nat
  response_cache_enabled : Bool
  response_cache_ttl_minutes : Nat
  response_cache_max_entries : Nat
  snapshot_enabled : Bool
  snapshot_on_hygiene : Bool
  auto_hydrate : Bool
  sqlite_open_timeout_secs : Option Nat
  qdrant : QdrantConfig
  deriving DecidableEq, Repr

/-- Modelled from the spec: the persisted `Config` document (schema, not
under src/), with the fields §6 lists as relevant to the core. -/
structure Config where
  default_provider : Option String
  default_model : Option String
  api_key : Option String
  api_url : Option String
  channels_config : ChannelsConfig
  tunnel : TunnelConfig
  composio : ComposioConfig
  secrets : SecretsConfig
  hardware : HardwareConfig
  memory : MemoryConfig
  workspace_dir : String
  config_path : String
  deriving DecidableEq, Repr

/-- `shared::ProjectContext` (`shared.rs`). -/
structure ProjectContext where
  user_name : String
  timezone : String
  agent_name : String
  communication_style : String
  deriving DecidableEq, Repr

/-! ## External collaborators

Everything the wizard calls that lives outside `src/onboard/tui` (provider
tables in `onboard::wizard`, the live catalog fetch, the filesystem, hardware
discovery, memory profiles, persistence) is a field of `Env`. -/

structure Env where
  providersForTier : Nat → List (String × String)
  providerTiers : List String
  curatedModels : String → List (String × String)
  fetchLiveModels : String → String → Option String → Except String (List String)
  defaultModelForProvider : String → String
  memoryBackendProfile : String → MemoryBackendProfile
  selectableMemoryBackends : List String
  defaultNostrRelays : List String
  fileExists : String → Bool
  readFile : String → Except String String
  parseConfig : String → Except String Config
  defaultConfig : Config
  discoverHardware : List String
  hardwareFromChoice : Nat → List String → HardwareConfig
  saveResult : Config → Except String Unit
  parentDir : String → Option String
  persistDirResult : String → Except String Unit
  scaffoldResult : String → ProjectContext → Except String Unit
  envUser : Option String
  resolveDirs : String × String
  resolveConfigDirForWorkspace : String → String × String
  tildeExpand : String → String

/-! ## Answer store (`App` in `state.rs`)

Text areas are single-line string buffers; `ListState` is the selected
index. -/

structure App where
  step : WizardStep
  loading : Bool
  status_message : String
  config_dir : String
  config_path : String
  workspace_dir : String
  mode : OnboardingMode
  force : Bool
  provider : String
  api_key : String
  api_url : Option String
  model : String
  workspace_input : String
  use_default_workspace : Bool
  custom_provider_url_input : String
  provider_endpoint_input : String
  provider_tier_list : Option Nat
  provider_list : Option Nat
  mode_list : Option Nat
  model_list : Option Nat
  api_key_input : String
  model_custom_input : String
  provider_tiers : List String
  current_tier_providers : List (String × String)
  available_models : List String
  channel_choice : ChannelChoice
  channel_list : Option Nat
  channel_token_input : String
  channel_aux_input : String
  channels_config : ChannelsConfig
  tunnel_choice : TunnelChoice
  tunnel_list : Option Nat
  tunnel_primary_input : String
  tunnel_secondary_input : String
  tunnel_toggle : Bool
  tool_mode_choice : ToolModeChoice
  tool_mode_list : Option Nat
  composio_key_input : String
  secrets_encrypt : Bool
  hardware_choice : Nat
  hardware_list : Option Nat
  hardware_datasheets : Bool
  memory_choice : Nat
  memory_list : Option Nat
  memory_auto_save : Bool
  project_user_input : String
  project_timezone_input : String
  project_agent_input : String
  project_style_list : Option Nat
  project_style_custom_input : String
  deriving DecidableEq, Repr

/-- `App::has_existing_config`: `self.config_path.exists()`. -/
def has_existing_config (env : Env) (a : App) : Bool :=
  env.fileExists a.config_path

/-- `App::needs_provider_endpoint`. -/
def needs_provider_endpoint (provider : String) : Bool :=
  provider = "llamacpp" || provider = "sglang" || provider = "vllm" ||
  provider = "osaurus"

/-- `App::new(force)` (`state.rs`) followed by the path initialization done in
`run_wizard` (`mod.rs` lines 30–34). -/
def initialApp (env : Env) (force : Bool) : App where
  step := .Welcome
  loading := false
  status_message := ""
  config_dir := env.resolveDirs.1
  config_path := pathJoin env.resolveDirs.1 "config.toml"
  workspace_dir := env.resolveDirs.2
  mode := .FullOnboarding
  force := force
  provider := ""
  api_key := ""
  api_url := none
  model := ""
  workspace_input := ""
  use_default_workspace := true
  custom_provider_url_input := ""
  provider_endpoint_input := ""
  provider_tier_list := none
  provider_list := none
  mode_list := some 1
  model_list := none
  api_key_input := ""
  model_custom_input := ""
  provider_tiers := env.providerTiers
  current_tier_providers := []
  available_models := []
  channel_choice := .CliOnly
  channel_list := some 0
  channel_token_input := ""
  channel_aux_input := ""
  channels_config := ChannelsConfig.default
  tunnel_choice := .None
  tunnel_list := some 0
  tunnel_primary_input := ""
  tunnel_secondary_input := ""
  tunnel_toggle := false
  tool_mode_choice := .Sovereign
  tool_mode_list := some 0
  composio_key_input := ""
  secrets_encrypt := true
  hardware_choice := 3
  hardware_list := some 3
  hardware_datasheets := false
  memory_choice := 0
  memory_list := some 0
  memory_auto_save := true
  project_user_input := ""
  project_timezone_input := ""
  project_agent_input := ""
  project_style_list := some 1
  project_style_custom_input := ""

/-! ## Step graph (`flow.rs`) -/

/-- Lexicographic order on character lists: the `Ord` order used by
`BTreeSet<String>` (UTF-8 byte order, which agrees with code-point order). -/
def charListLt : List Char → List Char → Bool
  | [], [] => false
  | [], _ :: _ => true
  | _ :: _, [] => false
  | a :: as, b :: bs =>
    if a.toNat < b.toNat then true
    else if b.toNat < a.toNat then false
    else charListLt as bs

def strLt (x y : String) : Bool := charListLt x.data y.data

/-- Ordered-set insertion: the behaviour of `BTreeSet<String>::insert`
followed by in-order iteration, on a sorted duplicate-free list. -/
def btreeInsert (x : String) : List String → List String
  | [] => [x]
  | y :: ys =>
    if strLt x y then x :: y :: ys
    else if x = y then y :: ys
    else y :: btreeInsert x ys

/-- The curated candidate set built in `prepare_models` (lines 35–38):
curated model ids collected into a `BTreeSet`. -/
def curatedCandidates (env : Env) (provider : String) : List String :=
  (env.curatedModels provider).foldl (fun s p => btreeInsert p.1 s) []

/-- `App::prepare_models` (`flow.rs` lines 31–68). -/
def prepare_models (env : Env) (a : App) : App :=
  let a1 := { a with
    loading := true,
    status_message := "Fetching models for " ++ a.provider ++ "..." }
  let candidates0 := curatedCandidates env a1.provider
  let fetched := env.fetchLiveModels a1.provider a1.api_key a1.api_url
  let candidates1 :=
    match fetched with
    | .ok models =>
      models.foldl
        (fun s m =>
          let trimmed := strTrim m
          if trimmed = "" then s else btreeInsert trimmed s)
        candidates0
    | .error _ => candidates0
  let status :=
    match fetched with
    | .ok _ => "Loaded live + curated model catalog"
    | .error e => "Live fetch unavailable: " ++ e
  let candidates2 :=
    if candidates1 = [] then
      btreeInsert (env.defaultModelForProvider a1.provider) candidates1
    else candidates1
  let merged := candidates2 ++ [CUSTOM_MODEL_SENTINEL]
  { a1 with
    status_message := status,
    available_models := merged,
    model_list := some 0,
    loading := false }

/-- `App::project_style_text` (`flow.rs` lines 70–80). -/
def project_style_text (a : App) : String :=
  match a.project_style_list.getD 1 with
  | 0 => "Be direct and concise. Skip pleasantries. Get to the point."
  | 1 => "Be friendly, human, and conversational. Show warmth and empathy while staying efficient. Use natural contractions."
  | 2 => "Be professional and polished. Stay calm, structured, and respectful. Use occasional tone-setting emojis only when appropriate."
  | 3 => "Be expressive and playful when appropriate. Use relevant emojis naturally (0-2 max), and keep serious topics emoji-light."
  | 4 => "Be technical and detailed. Thorough explanations, code-first."
  | 5 => "Adapt to the situation. Default to warm and clear communication; be concise when needed, thorough when it matters."
  | _ => text_value a.project_style_custom_input

/-- `App::apply_channel_choice` (`flow.rs` lines 82–106). -/
def apply_channel_choice (a : App) : App :=
  let selected := a.channel_list.getD 0
  let choice : ChannelChoice :=
    match selected with
    | 1 => .Telegram
    | 2 => .Discord
    | 3 => .Slack
    | 4 => .IMessage
    | 5 => .Matrix
    | 6 => .Signal
    | 7 => .WhatsApp
    | 8 => .Linq
    | 9 => .Irc
    | 10 => .Webhook
    | 11 => .NextcloudTalk
    | 12 => .DingTalk
    | 13 => .QqOfficial
    | 14 => .Lark
    | 15 => .Feishu
    | 16 => .Nostr
    | _ => .CliOnly
  { a with
    channel_choice := choice,
    channels_config := { ChannelsConfig.default with cli := true } }

/-- `App::apply_channel_token` (`flow.rs` lines 108–292). -/
def apply_channel_token (env : Env) (a : App) : App :=
  let token := text_value a.channel_token_input
  let aux := text_value a.channel_aux_input
  let allowed_users := parse_list_csv aux
  match a.channel_choice with
  | .Telegram =>
    if token ≠ "" then
      { a with channels_config := { a.channels_config with
          telegram := some {
            bot_token := token
            allowed_users := allowed_users
            stream_mode := StreamMode.default
            draft_update_interval_ms := 1000
            interrupt_on_new_message := false
            mention_only := false } } }
    else a
  | .Discord =>
    if token ≠ "" then
      { a with channels_config := { a.channels_config with
          discord := some {
            bot_token := token
            guild_id := none
            allowed_users := allowed_users
            listen_to_bots := false
            mention_only := false } } }
    else a
  | .Slack =>
    if token ≠ "" then
      { a with channels_config := { a.channels_config with
          slack := some {
            bot_token := token
            app_token := none
            channel_id := none
            allowed_users := allowed_users } } }
    else a
  | .Webhook =>
    let port := (parseU16 token).getD 8081
    { a with channels_config := { a.channels_config with
        webhook := some {
          port := port
          secret := if aux = "" then none else some aux } } }
  | .IMessage =>
    { a with channels_config := { a.channels_config with
        imessage := some { allowed_contacts := allowed_users } } }
  | .Matrix =>
    { a with channels_config := { a.channels_config with
        matrix := some {
          homeserver := if aux = "" then "https://matrix.org" else aux
          access_token := token
          user_id := none
          device_id := none
          room_id := "!zeroclaw:matrix.org"
          allowed_users := ["*"] } } }
  | .Signal =>
    { a with channels_config := { a.channels_config with
        signal := some {
          http_url := "http://127.0.0.1:8686"
          account := token
          group_id := if aux = "" then none else some aux
          allowed_from := ["*"]
          ignore_attachments := false
          ignore_stories := true } } }
  | .WhatsApp =>
    { a with channels_config := { a.channels_config with
        whatsapp := some {
          access_token := if token = "" then none else some token
          phone_number_id := if aux = "" then none else some aux
          verify_token := some "zeroclaw"
          app_secret := none
          session_path := none
          pair_phone := none
          pair_code := none
          allowed_numbers := ["*"] } } }
  | .Linq =>
    { a with channels_config := { a.channels_config with
        linq := some {
          api_token := token
          from_phone := if aux = "" then "+10000000000" else aux
          signing_secret := none
          allowed_senders := ["*"] } } }
  | .Irc =>
    { a with channels_config := { a.channels_config with
        irc := some {
          server := if token = "" then "irc.libera.chat" else token
          port := 6697
          nickname := if aux = "" then "zeroclaw" else aux
          username := none
          channels := ["#general"]
          allowed_users := ["*"]
          server_password := none
          nickserv_password := none
          sasl_password := none
          verify_tls := some true } } }
  | .NextcloudTalk =>
    { a with channels_config := { a.channels_config with
        nextcloud_talk := some {
          base_url := token
          app_token := aux
          webhook_secret := none
          allowed_users := ["*"] } } }
  | .DingTalk =>
    { a with channels_config := { a.channels_config with
        dingtalk := some {
          client_id := token
          client_secret := aux
          allowed_users := ["*"] } } }
  | .QqOfficial =>
    { a with channels_config := { a.channels_config with
        qq := some {
          app_id := token
          app_secret := aux
          allowed_users := ["*"] } } }
  | .Lark =>
    { a with channels_config := { a.channels_config with
        lark := some {
          app_id := token
          app_secret := aux
          encrypt_key := none
          verification_token := none
          allowed_users := ["*"]
          mention_only := false
          use_feishu := false
          receive_mode := .Websocket
          port := none } } }
  | .Feishu =>
    { a with channels_config := { a.channels_config with
        feishu := some {
          app_id := token
          app_secret := aux
          encrypt_key := none
          verification_token := none
          allowed_users := ["*"]
          receive_mode := .Websocket
          port := none } } }
  | .Nostr =>
    { a with channels_config := { a.channels_config with
        nostr := some {
          private_key := token
          relays := env.defaultNostrRelays
          allowed_pubkeys := if aux = "" then ["*"] else parse_list_csv aux } } }
  | .CliOnly => a

/-- `App::apply_tunnel_choice` (`flow.rs` lines 294–302). -/
def apply_tunnel_choice (a : App) : App :=
  { a with tunnel_choice :=
      match a.tunnel_list.getD 0 with
      | 1 => .Cloudflare
      | 2 => .Tailscale
      | 3 => .Ngrok
      | 4 => .Custom
      | _ => .None }

/-- `App::next_step` (`flow.rs` lines 304–457): the `advance` transition. -/
def next_step (env : Env) (a : App) : App :=
  match a.step with
  | .Welcome =>
    if has_existing_config env a ∧ ¬a.force then
      { a with step := .ConfigModeSelection }
    else
      { a with mode := .FullOnboarding, step := .WorkspaceSetup }
  | .ConfigModeSelection =>
    { a with
      mode := if a.mode_list.getD 1 = 0 then .FullOnboarding
              else .UpdateProviderOnly,
      step := .WorkspaceSetup }
  | .WorkspaceSetup => { a with step := .ProviderTierSelection }
  | .ProviderTierSelection =>
    let tier_idx := a.provider_tier_list.getD 0
    let providers := env.providersForTier tier_idx
    if providers = [] then
      { a with current_tier_providers := providers,
               step := .CustomProviderUrlEntry }
    else
      { a with current_tier_providers := providers,
               step := .ProviderSelection }
  | .ProviderSelection =>
    let idx := a.provider_list.getD 0
    match a.current_tier_providers.get? idx with
    | some p =>
      let a1 := { a with provider := p.1, api_url := none }
      if needs_provider_endpoint a1.provider then
        { a1 with step := .ProviderEndpointEntry }
      else
        { a1 with step := .ApiKeyEntry }
    | none => a
  | .CustomProviderUrlEntry =>
    let input := text_value a.custom_provider_url_input
    let normalized := trimEndMatchesSlash input
    if normalized ≠ "" then
      { a with provider := "custom:" ++ normalized, api_url := none,
               step := .ApiKeyEntry }
    else a
  | .ProviderEndpointEntry =>
    let input := text_value a.provider_endpoint_input
    let normalized := trimEndMatchesSlash input
    if normalized ≠ "" then
      { a with api_url := some normalized, step := .ApiKeyEntry }
    else a
  | .ApiKeyEntry =>
    let a1 := { a with api_key := text_value a.api_key_input }
    let a2 := prepare_models env a1
    { a2 with step := .ModelSelection }
  | .ModelSelection =>
    let idx := a.model_list.getD 0
    match a.available_models.get? idx with
    | some selected =>
      if selected = CUSTOM_MODEL_SENTINEL then
        { a with step := .ModelCustomEntry }
      else
        { a with model := selected, step := .ChannelSelection }
    | none => a
  | .ModelCustomEntry =>
    let typed := text_value a.model_custom_input
    if typed ≠ "" then
      { a with model := typed, step := .ChannelSelection }
    else a
  | .ChannelSelection =>
    let a1 := apply_channel_choice a
    match a1.channel_choice with
    | .CliOnly => { a1 with step := .TunnelSelection }
    | .IMessage => { a1 with step := .ChannelAuxEntry }
    | .Webhook => { a1 with step := .ChannelTokenEntry }
    | _ => { a1 with step := .ChannelTokenEntry }
  | .ChannelTokenEntry =>
    match a.channel_choice with
    | .Webhook => { a with step := .ChannelAuxEntry }
    | .CliOnly => { a with step := .TunnelSelection }
    | _ => { a with step := .ChannelAuxEntry }
  | .ChannelAuxEntry =>
    let a1 := apply_channel_token env a
    { a1 with step := .TunnelSelection }
  | .TunnelSelection =>
    let a1 := apply_tunnel_choice a
    { a1 with step :=
        match a1.tunnel_choice with
        | .None => .ToolModeSelection
        | _ => .TunnelPrimaryEntry }
  | .TunnelPrimaryEntry =>
    { a with step :=
        match a.tunnel_choice with
        | .Cloudflare => .ToolModeSelection
        | _ => .TunnelSecondaryEntry }
  | .TunnelSecondaryEntry => { a with step := .ToolModeSelection }
  | .ToolModeSelection =>
    let choice : ToolModeChoice :=
      if a.tool_mode_list.getD 0 = 1 then .Composio else .Sovereign
    { a with
      tool_mode_choice := choice,
      step := match choice with
              | .Composio => .ComposioApiKeyEntry
              | .Sovereign => .SecretsEncryptChoice }
  | .ComposioApiKeyEntry => { a with step := .SecretsEncryptChoice }
  | .SecretsEncryptChoice => { a with step := .HardwareSelection }
  | .HardwareSelection =>
    { a with hardware_choice := a.hardware_list.getD 3,
             step := .MemorySelection }
  | .MemorySelection =>
    let memory_choice := a.memory_list.getD 0
    let backend := (env.selectableMemoryBackends.get? memory_choice).getD "sqlite"
    { a with
      memory_choice := memory_choice,
      memory_auto_save := (env.memoryBackendProfile backend).auto_save_default,
      step := .ProjectUserEntry }
  | .ProjectUserEntry => { a with step := .ProjectTimezoneEntry }
  | .ProjectTimezoneEntry => { a with step := .ProjectAgentEntry }
  | .ProjectAgentEntry => { a with step := .ProjectStyleSelection }
  | .ProjectStyleSelection =>
    if a.project_style_list.getD 1 = 6 then
      { a with step := .ProjectStyleCustomEntry }
    else
      { a with step := .Confirmation }
  | .ProjectStyleCustomEntry => { a with step := .Confirmation }
  | .Confirmation => { a with step := .Done }
  | .Done => a

/-- `App::tunnel_config` (`flow.rs` lines 459–515). -/
def tunnel_config (a : App) : TunnelConfig :=
  let primary := text_value a.tunnel_primary_input
  let secondary := text_value a.tunnel_secondary_input
  match a.tunnel_choice with
  | .Cloudflare =>
    { provider := "cloudflare"
      cloudflare := some { token := primary }
      tailscale := none
      ngrok := none
      custom := none }
  | .Tailscale =>
    { provider := "tailscale"
      cloudflare := none
      tailscale := some {
        funnel := a.tunnel_toggle
        hostname := if secondary = "" then none else some secondary }
      ngrok := none
      custom := none }
  | .Ngrok =>
    { provider := "ngrok"
      cloudflare := none
      tailscale := none
      ngrok := some {
        auth_token := primary
        domain := if secondary = "" then none else some secondary }
      custom := none }
  | .Custom =>
    { provider := "custom"
      cloudflare := none
      tailscale := none
      ngrok := none
      custom := some {
        start_command := primary
        health_url := if secondary = "" then none else some secondary
        url_pattern := none } }
  | .None => TunnelConfig.default

/-! ## Input router (`events.rs`) -/

/-- The key events the wizard loop distinguishes. -/
inductive Key
  | esc
  | enter
  | down
  | up
  | tab
  | char (c : Char)
  deriving DecidableEq, Repr

/-- Append a typed character to a single-line text buffer
(`TextArea::input` for a character key). -/
def pushChar (buf : String) (c : Char) : String := buf.push c

/-- One iteration of `run_app_loop`'s key handling (`events.rs` lines 18–316):
returns the updated state and whether the loop returned `Ok(())`. -/
def handleKey (env : Env) (a : App) (k : Key) : App × Bool :=
  if k = .esc then (a, true)
  else
    match a.step with
    | .Welcome =>
      if k = .enter then (next_step env a, false) else (a, false)
    | .ConfigModeSelection =>
      if k = .enter then (next_step env a, false)
      else if k = .down then
        let index := a.mode_list.getD 1
        if index < 1 then ({ a with mode_list := some (index + 1) }, false)
        else (a, false)
      else if k = .up then
        let index := a.mode_list.getD 1
        if index > 0 then ({ a with mode_list := some (index - 1) }, false)
        else (a, false)
      else (a, false)
    | .WorkspaceSetup =>
      if k = .enter then
        let a1 :=
          if ¬a.use_default_workspace then
            let input := text_value a.workspace_input
            if input ≠ "" then
              let expanded := env.tildeExpand input
              let dirs := env.resolveConfigDirForWorkspace expanded
              { a with
                config_dir := dirs.1,
                workspace_dir := dirs.2,
                config_path := pathJoin dirs.1 "config.toml" }
            else a
          else a
        (next_step env a1, false)
      else if k = .tab then
        ({ a with use_default_workspace := ¬a.use_default_workspace }, false)
      else
        match k with
        | .char c =>
          if ¬a.use_default_workspace then
            ({ a with workspace_input := pushChar a.workspace_input c }, false)
          else (a, false)
        | _ => (a, false)
    | .ProviderTierSelection =>
      if k = .enter then (next_step env a, false)
      else if k = .down then
        let index := a.provider_tier_list.getD 0
        if index < a.provider_tiers.length - 1 then
          ({ a with provider_tier_list := some (index + 1) }, false)
        else (a, false)
      else if k = .up then
        let index := a.provider_tier_list.getD 0
        if index > 0 then ({ a with provider_tier_list := some (index - 1) }, false)
        else (a, false)
      else (a, false)
    | .ProviderSelection =>
      if k = .enter then (next_step env a, false)
      else if k = .down then
        let index := a.provider_list.getD 0
        if index < a.current_tier_providers.length - 1 then
          ({ a with provider_list := some (index + 1) }, false)
        else (a, false)
      else if k = .up then
        let index := a.provider_list.getD 0
        if index > 0 then ({ a with provider_list := some (index - 1) }, false)
        else (a, false)
      else (a, false)
    | .CustomProviderUrlEntry =>
      if k = .enter then (next_step env a, false)
      else
        match k with
        | .char c =>
          ({ a with custom_provider_url_input :=
               pushChar a.custom_provider_url_input c }, false)
        | _ => (a, false)
    | .ProviderEndpointEntry =>
      if k = .enter then (next_step env a, false)
      else
        match k with
        | .char c =>
          ({ a with provider_endpoint_input :=
               pushChar a.provider_endpoint_input c }, false)
        | _ => (a, false)
    | .ApiKeyEntry =>
      if k = .enter then (next_step env a, false)
      else
        match k with
        | .char c =>
          ({ a with api_key_input := pushChar a.api_key_input c }, false)
        | _ => (a, false)
    | .ModelSelection =>
      if k = .enter then (next_step env a, false)
      else if k = .down then
        let index := a.model_list.getD 0
        if index < a.available_models.length - 1 then
          ({ a with model_list := some (index + 1) }, false)
        else (a, false)
      else if k = .up then
        let index := a.model_list.getD 0
        if index > 0 then ({ a with model_list := some (index - 1) }, false)
        else (a, false)
      else (a, false)
    | .ModelCustomEntry =>
      if k = .enter then (next_step env a, false)
      else
        match k with
        | .char c =>
          ({ a with model_custom_input := pushChar a.model_custom_input c }, false)
        | _ => (a, false)
    | .ChannelSelection =>
      if k = .enter then (next_step env a, false)
      else if k = .down then
        let index := a.channel_list.getD 0
        if index < 16 then ({ a with channel_list := some (index + 1) }, false)
        else (a, false)
      else if k = .up then
        let index := a.channel_list.getD 0
        if index > 0 then ({ a with channel_list := some (index - 1) }, false)
        else (a, false)
      else (a, false)
    | .ChannelTokenEntry =>
      if k = .enter then (next_step env a, false)
      else
        match k with
        | .char c =>
          ({ a with channel_token_input := pushChar a.channel_token_input c }, false)
        | _ => (a, false)
    | .ChannelAuxEntry =>
      if k = .enter then (next_step env a, false)
      else
        match k with
        | .char c =>
          if a.channel_choice = .IMessage then
            ({ a with channel_token_input :=
                 pushChar a.channel_token_input c }, false)
          else
            ({ a with channel_aux_input := pushChar a.channel_aux_input c }, false)
        | _ => (a, false)
    | .TunnelSelection =>
      if k = .enter then (next_step env a, false)
      else if k = .down then
        let index := a.tunnel_list.getD 0
        if index < 4 then ({ a with tunnel_list := some (index + 1) }, false)
        else (a, false)
      else if k = .up then
        let index := a.tunnel_list.getD 0
        if index > 0 then ({ a with tunnel_list := some (index - 1) }, false)
        else (a, false)
      else (a, false)
    | .TunnelPrimaryEntry =>
      if k = .enter then (next_step env a, false)
      else if k = .tab then
        ({ a with tunnel_toggle := ¬a.tunnel_toggle }, false)
      else
        match k with
        | .char c =>
          ({ a with tunnel_primary_input :=
               pushChar a.tunnel_primary_input c }, false)
        | _ => (a, false)
    | .TunnelSecondaryEntry =>
      if k = .enter then (next_step env a, false)
      else
        match k with
        | .char c =>
          ({ a with tunnel_secondary_input :=
               pushChar a.tunnel_secondary_input c }, false)
        | _ => (a, false)
    | .ToolModeSelection =>
      if k = .enter then (next_step env a, false)
      else if k = .down then
        let index := a.tool_mode_list.getD 0
        if index < 1 then ({ a with tool_mode_list := some (index + 1) }, false)
        else (a, false)
      else if k = .up then
        let index := a.tool_mode_list.getD 0
        if index > 0 then ({ a with tool_mode_list := some (index - 1) }, false)
        else (a, false)
      else (a, false)
    | .ComposioApiKeyEntry =>
      if k = .enter then (next_step env a, false)
      else
        match k with
        | .char c =>
          ({ a with composio_key_input := pushChar a.composio_key_input c }, false)
        | _ => (a, false)
    | .SecretsEncryptChoice =>
      if k = .enter then (next_step env a, false)
      else if k = .tab then
        ({ a with secrets_encrypt := ¬a.secrets_encrypt }, false)
      else (a, false)
    | .HardwareSelection =>
      if k = .enter then (next_step env a, false)
      else if k = .down then
        let index := a.hardware_list.getD 3
        if index < 3 then ({ a with hardware_list := some (index + 1) }, false)
        else (a, false)
      else if k = .up then
        let index := a.hardware_list.getD 3
        if index > 0 then ({ a with hardware_list := some (index - 1) }, false)
        else (a, false)
      else if k = .tab then
        ({ a with hardware_datasheets := ¬a.hardware_datasheets }, false)
      else (a, false)
    | .MemorySelection =>
      if k = .enter then (next_step env a, false)
      else if k = .down then
        let max_index := env.selectableMemoryBackends.length - 1
        let index := a.memory_list.getD 0
        if index < max_index then
          ({ a with memory_list := some (index + 1) }, false)
        else (a, false)
      else if k = .up then
        let index := a.memory_list.getD 0
        if index > 0 then ({ a with memory_list := some (index - 1) }, false)
        else (a, false)
      else if k = .tab then
        ({ a with memory_auto_save := ¬a.memory_auto_save }, false)
      else (a, false)
    | .ProjectUserEntry =>
      if k = .enter then (next_step env a, false)
      else
        match k with
        | .char c =>
          ({ a with project_user_input := pushChar a.project_user_input c }, false)
        | _ => (a, false)
    | .ProjectTimezoneEntry =>
      if k = .enter then (next_step env a, false)
      else
        match k with
        | .char c =>
          ({ a with project_timezone_input :=
               pushChar a.project_timezone_input c }, false)
        | _ => (a, false)
    | .ProjectAgentEntry =>
      if k = .enter then (next_step env a, false)
      else
        match k with
        | .char c =>
          ({ a with project_agent_input := pushChar a.project_agent_input c }, false)
        | _ => (a, false)
    | .ProjectStyleSelection =>
      if k = .enter then (next_step env a, false)
      else if k = .down then
        let index := a.project_style_list.getD 1
        if index < 6 then ({ a with project_style_list := some (index + 1) }, false)
        else (a, false)
      else if k = .up then
        let index := a.project_style_list.getD 1
        if index > 0 then ({ a with project_style_list := some (index - 1) }, false)
        else (a, false)
      else (a, false)
    | .ProjectStyleCustomEntry =>
      if k = .enter then (next_step env a, false)
      else
        match k with
        | .char c =>
          ({ a with project_style_custom_input :=
               pushChar a.project_style_custom_input c }, false)
        | _ => (a, false)
    | .Confirmation =>
      if k = .enter then (a, true) else (a, false)
    | .Done => (a, true)

/-- `run_app_loop` over a finite list of key events: final state plus whether
the loop returned `Ok(())` (it does so on Esc, on Enter at `Confirmation`,
and on any key at `Done`). -/
def run_app_loop (env : Env) (a : App) : List Key → App × Bool
  | [] => (a, false)
  | k :: ks =>
    match handleKey env a k with
    | (a1, true) => (a1, true)
    | (a1, false) => run_app_loop env a1 ks

/-! ## Synthesis (`finalize.rs`) -/

/-- `memory_config_defaults_for_backend` (`finalize.rs` lines 12–39). -/
def memory_config_defaults_for_backend (env : Env) (backend : String) :
    MemoryConfig :=
  let profile := env.memoryBackendProfile backend
  { backend := backend
    auto_save := profile.auto_save_default
    hygiene_enabled := profile.uses_sqlite_hygiene
    archive_after_days := if profile.uses_sqlite_hygiene then 7 else 0
    purge_after_days := if profile.uses_sqlite_hygiene then 30 else 0
    conversation_retention_days := 30
    embedding_provider := "none"
    embedding_model := "text-embedding-3-small"
    embedding_dimensions := 1536
    vector_weight := (7 : ℚ) / 10
    keyword_weight := (3 : ℚ) / 10
    min_relevance_score := (4 : ℚ) / 10
    embedding_cache_size := if profile.uses_sqlite_hygiene then 10000 else 0
    chunk_max_tokens := 512
    response_cache_enabled := false
    response_cache_ttl_minutes := 60
    response_cache_max_entries := 5000
    snapshot_enabled := false
    snapshot_on_hygiene := false
    auto_hydrate := true
    sqlite_open_timeout_secs := none
    qdrant := QdrantConfig.default }

/-- The outcome of `finalize_config`: the returned result, every document
handed to the persistence collaborator (`config.save()`), and whether the
channel-autostart signal was raised. -/
structure FinalizeOut where
  result : Except String Config
  saveAttempts : List Config
  autostart : Bool
  deriving Repr

/-- `finalize_config`, assembly phase (`finalize.rs` lines 42–116): resolve
provider and model, load-or-default the base document, overwrite the
provider/model/api fields, and — in FullOnboarding mode only — the
channel/tunnel/composio/secrets/hardware/memory sections.  No persistence
happens in this phase. -/
def assemble_config (env : Env) (a : App) : Except String Config :=
  let provider :=
    if strTrim a.provider = "" then "openrouter" else strTrim a.provider
  let model :=
    if strTrim a.model = "" then env.defaultModelForProvider provider
    else strTrim a.model
  let base : Except String Config :=
    if a.mode = .UpdateProviderOnly ∧ env.fileExists a.config_path then
      match env.readFile a.config_path with
      | .error e =>
        .error ("Failed to read existing config at " ++ a.config_path ++ ": " ++ e)
      | .ok raw =>
        match env.parseConfig raw with
        | .error e =>
          .error ("Failed to parse existing config at " ++ a.config_path ++ ": " ++ e)
        | .ok loaded =>
          .ok { loaded with
                  workspace_dir := a.workspace_dir,
                  config_path := a.config_path }
    else
      .ok { env.defaultConfig with
              workspace_dir := a.workspace_dir,
              config_path := a.config_path }
  match base with
  | .error e => .error e
  | .ok cfg0 =>
    let cfg1 := { cfg0 with
      default_provider := some provider,
      default_model := some model,
      api_url := a.api_url,
      api_key := if strTrim a.api_key = "" then none else some (strTrim a.api_key) }
    if a.mode = .FullOnboarding then
      let composio : ComposioConfig :=
        match a.tool_mode_choice with
        | .Composio =>
          { enabled := true
            api_key :=
              let key := text_value a.composio_key_input
              if key = "" then none else some key
            entity_id := "default" }
        | .Sovereign => ComposioConfig.default
      let devices := env.discoverHardware
      let hardware0 := env.hardwareFromChoice a.hardware_choice devices
      let hardware1 := { hardware0 with workspace_datasheets := a.hardware_datasheets }
      let backend := (env.selectableMemoryBackends.get? a.memory_choice).getD "sqlite"
      let memory0 := memory_config_defaults_for_backend env backend
      let memory1 := { memory0 with auto_save := a.memory_auto_save }
      .ok { cfg1 with
        channels_config := a.channels_config,
        tunnel := tunnel_config a,
        composio := composio,
        secrets := { encrypt := a.secrets_encrypt },
        hardware := hardware1,
        memory := memory1 }
    else .ok cfg1

/-- The `ProjectContext` built for workspace scaffolding
(`finalize.rs` lines 127–153): collected user name (environment-derived
fallback), timezone (fallback `"UTC"`), agent name (fallback `"ZeroClaw"`),
and the selected communication style. -/
def project_context (env : Env) (a : App) : ProjectContext where
  user_name :=
    let typed := text_value a.project_user_input
    if typed = "" then env.envUser.getD "User" else typed
  timezone :=
    let typed := text_value a.project_timezone_input
    if typed = "" then "UTC" else typed
  agent_name :=
    let typed := text_value a.project_agent_input
    if typed = "" then "ZeroClaw" else typed
  communication_style := project_style_text a

/-- `finalize_config` (`finalize.rs` lines 41–167): Synthesis = the assembly
phase above followed by persistence (`config.save()`, recording the active
config directory) and, in FullOnboarding mode, workspace scaffolding and the
channel-autostart signal. -/
def finalize_config (env : Env) (a : App) : FinalizeOut :=
  match assemble_config env a with
  | .error e => { result := .error e, saveAttempts := [], autostart := false }
  | .ok cfg =>
    match env.saveResult cfg with
    | .error e => { result := .error e, saveAttempts := [cfg], autostart := false }
    | .ok _ =>
      match env.parentDir cfg.config_path with
      | none =>
        { result := .error "Config path must have a parent directory",
          saveAttempts := [cfg], autostart := false }
      | some dir =>
        match env.persistDirResult dir with
        | .error e =>
          { result := .error e, saveAttempts := [cfg], autostart := false }
        | .ok _ =>
          if a.mode = .FullOnboarding then
            match env.scaffoldResult cfg.workspace_dir (project_context env a) with
            | .error e =>
              { result := .error e, saveAttempts := [cfg], autostart := false }
            | .ok _ =>
              { result := .ok cfg,
                saveAttempts := [cfg],
                autostart := cfg.channels_config.anyExceptWebhook && cfg.api_key.isSome }
          else
            { result := .ok cfg, saveAttempts := [cfg], autostart := false }

/-- `run_wizard` (`mod.rs` lines 21–49) over a finite list of key events:
`App::new` + path initialization, then the event loop; when the loop returns
`Ok(())` — which it also does on Esc/cancel — `finalize_config` is invoked on
the accumulated answer store.  `none` means the finite key list ended with
the loop still running. -/
def run_wizard (env : Env) (force : Bool) (keys : List Key) :
    Option FinalizeOut :=
  match run_app_loop env (initialApp env force) keys with
  | (a, true) => some (finalize_config env a)
  | (_, false) => none

/-! ## Concrete fixtures

A concrete environment and derived answer stores, used to instantiate
witnesses and counterexamples. -/

def memoryConfig₀ : MemoryConfig where
  backend := "sqlite"
  auto_save := true
  hygiene_enabled := true
  archive_after_days := 7
  purge_after_days := 30
  conversation_retention_days := 30
  embedding_provider := "none"
  embedding_model := "text-embedding-3-small"
  embedding_dimensions := 1536
  vector_weight := (7 : ℚ) / 10
  keyword_weight := (3 : ℚ) / 10
  min_relevance_score := (4 : ℚ) / 10
  embedding_cache_size := 10000
  chunk_max_tokens := 512
  response_cache_enabled := false
  response_cache_ttl_minutes := 60
  response_cache_max_entries := 5000
  snapshot_enabled := false
  snapshot_on_hygiene := false
  auto_hydrate := true
  sqlite_open_timeout_secs := none
  qdrant := QdrantConfig.default

def config₀ : Config where
  default_provider := none
  default_model := none
  api_key := none
  api_url := none
  channels_config := ChannelsConfig.default
  tunnel := TunnelConfig.default
  composio := ComposioConfig.default
  secrets := { encrypt := false }
  hardware := { summary := "", mode := "software", workspace_datasheets := false }
  memory := memoryConfig₀
  workspace_dir := "/home/op/zeroclaw"
  config_path := "/home/op/.zeroclaw/config.toml"

def env₀ : Env where
  providersForTier := fun _ => [("openai", "OpenAI")]
  providerTiers := ["Hosted"]
  curatedModels := fun _ => []
  fetchLiveModels := fun _ _ _ => .error "offline"
  defaultModelForProvider := fun _ => "default-model"
  memoryBackendProfile := fun _ => { auto_save_default := true, uses_sqlite_hygiene := true }
  selectableMemoryBackends := ["sqlite"]
  defaultNostrRelays := ["wss://relay.example"]
  fileExists := fun _ => false
  readFile := fun _ => .error "io"
  parseConfig := fun _ => .error "parse"
  defaultConfig := config₀
  discoverHardware := []
  hardwareFromChoice := fun _ _ => { summary := "", mode := "software", workspace_datasheets := false }
  saveResult := fun _ => .ok ()
  parentDir := fun _ => some "/home/op/.zeroclaw"
  persistDirResult := fun _ => .ok ()
  scaffoldResult := fun _ _ => .ok ()
  envUser := none
  resolveDirs := ("/home/op/.zeroclaw", "/home/op/zeroclaw")
  resolveConfigDirForWorkspace := fun w => (w ++ "/.zeroclaw", w)
  tildeExpand := fun s => s

/-! ## C9: empty required text re-enters the step -/

/-- C9: for every wizard step whose confirmation requires a non-empty text
input (`CustomProviderUrlEntry`, `ProviderEndpointEntry`, `ModelCustomEntry`),
confirming with empty required text leaves the whole answer store — the step
included — unchanged: the engine never advances on invalid input. -/
theorem empty_required_text_reenters_step (env : Env) (a : App)
    (h : (a.step = .CustomProviderUrlEntry ∧
            text_value a.custom_provider_url_input = "") ∨
         (a.step = .ProviderEndpointEntry ∧
            text_value a.provider_endpoint_input = "") ∨
         (a.step = .ModelCustomEntry ∧
            text_value a.model_custom_input = "")) :
    next_step env a = a := by
  have hslash : trimEndMatchesSlash "" = "" := by decide
  rcases h with ⟨h1, h2⟩ | ⟨h1, h2⟩ | ⟨h1, h2⟩ <;>
    simp [next_step, h1, h2, hslash]

def appC9 : App := { initialApp env₀ false with step := .CustomProviderUrlEntry }

/-- C9 witness: empty text submitted at `CustomProviderUrlEntry` is a
no-op. -/
theorem empty_required_text_reenters_step_witness :
    next_step env₀ appC9 = appC9 :=
  empty_required_text_reenters_step env₀ appC9 (Or.inl ⟨rfl, rfl⟩)

/-! ## C6: Telegram with token `"abc123"` and empty aux -/

def appC6 : App := { initialApp env₀ false with
  step := .ChannelSelection,
  channel_list := some 1,
  channel_token_input := "abc123",
  channel_aux_input := "" }

/-- C6: confirming `ChannelSelection` with Telegram selected, then the token
step with primary `"abc123"`, then `ChannelAuxEntry` with empty auxiliary
input, yields a Telegram sub-config with `bot_token = "abc123"` and an empty
allow-list. -/
theorem telegram_token_yields_empty_allowlist (env : Env) :
    (next_step env (next_step env (next_step env appC6))).channels_config.telegram
      = some { bot_token := "abc123", allowed_users := [],
               stream_mode := .defaultMode, draft_update_interval_ms := 1000,
               interrupt_on_new_message := false, mention_only := false } := by
  rfl

/-! ## C5: allow-list defaulting at `ChannelAuxEntry` -/

def appC5 : App := { initialApp env₀ false with
  step := .ChannelAuxEntry,
  channel_choice := .Telegram,
  channel_token_input := "abc123",
  channel_aux_input := "" }

/-- C5 counterexample: a Telegram sub-config populated at `ChannelAuxEntry`
with an untouched auxiliary input gets the empty allow-list, not `["*"]`. -/
theorem allowlist_star_default_counterexample :
    ((next_step env₀ appC5).channels_config.telegram.map
        TelegramConfig.allowed_users) = some [] ∧
      some ([] : List String) ≠ some ["*"] :=
  ⟨rfl, by decide⟩

/-- C5 amended: of the channels populated at `ChannelAuxEntry`, Matrix,
Signal, WhatsApp, Linq, Irc, NextcloudTalk, DingTalk, QqOfficial, Lark and
Feishu fix their allow-list to `["*"]`; Nostr defaults to `["*"]` unless the
auxiliary input narrows it; Telegram, Discord, Slack and IMessage take their
allow-list verbatim from the comma-separated auxiliary input, so an empty
auxiliary input gives the empty allow-list rather than `["*"]`. -/
theorem allowlist_defaults_amended (env : Env) (a : App)
    (h : a.step = .ChannelAuxEntry) :
    (a.channel_choice = .Matrix →
      ((next_step env a).channels_config.matrix.map MatrixConfig.allowed_users)
        = some ["*"]) ∧
    (a.channel_choice = .Signal →
      ((next_step env a).channels_config.signal.map SignalConfig.allowed_from)
        = some ["*"]) ∧
    (a.channel_choice = .WhatsApp →
      ((next_step env a).channels_config.whatsapp.map WhatsAppConfig.allowed_numbers)
        = some ["*"]) ∧
    (a.channel_choice = .Linq →
      ((next_step env a).channels_config.linq.map LinqConfig.allowed_senders)
        = some ["*"]) ∧
    (a.channel_choice = .Irc →
      ((next_step env a).channels_config.irc.map IrcConfig.allowed_users)
        = some ["*"]) ∧
    (a.channel_choice = .NextcloudTalk →
      ((next_step env a).channels_config.nextcloud_talk.map
          NextcloudTalkConfig.allowed_users) = some ["*"]) ∧
    (a.channel_choice = .DingTalk →
      ((next_step env a).channels_config.dingtalk.map DingTalkConfig.allowed_users)
        = some ["*"]) ∧
    (a.channel_choice = .QqOfficial →
      ((next_step env a).channels_config.qq.map QQConfig.allowed_users)
        = some ["*"]) ∧
    (a.channel_choice = .Lark →
      ((next_step env a).channels_config.lark.map LarkConfig.allowed_users)
        = some ["*"]) ∧
    (a.channel_choice = .Feishu →
      ((next_step env a).channels_config.feishu.map FeishuConfig.allowed_users)
        = some ["*"]) ∧
    (a.channel_choice = .Nostr →
      ((next_step env a).channels_config.nostr.map NostrConfig.allowed_pubkeys)
        = some (if text_value a.channel_aux_input = "" then ["*"]
                else parse_list_csv (text_value a.channel_aux_input))) ∧
    (a.channel_choice = .Telegram → text_value a.channel_token_input ≠ "" →
      ((next_step env a).channels_config.telegram.map TelegramConfig.allowed_users)
        = some (parse_list_csv (text_value a.channel_aux_input))) ∧
    (a.channel_choice = .Discord → text_value a.channel_token_input ≠ "" →
      ((next_step env a).channels_config.discord.map DiscordConfig.allowed_users)
        = some (parse_list_csv (text_value a.channel_aux_input))) ∧
    (a.channel_choice = .Slack → text_value a.channel_token_input ≠ "" →
      ((next_step env a).channels_config.slack.map SlackConfig.allowed_users)
        = some (parse_list_csv (text_value a.channel_aux_input))) ∧
    (a.channel_choice = .IMessage →
      ((next_step env a).channels_config.imessage.map IMessageConfig.allowed_contacts)
        = some (parse_list_csv (text_value a.channel_aux_input))) := by
  refine ⟨?_, ?_, ?_, ?_, ?_, ?_, ?_, ?_, ?_, ?_, ?_, ?_, ?_, ?_, ?_⟩ <;>
    intro hc
  case _ => simp [next_step, h, apply_channel_token, hc]
  case _ => simp [next_step, h, apply_channel_token, hc]
  case _ => simp [next_step, h, apply_channel_token, hc]
  case _ => simp [next_step, h, apply_channel_token, hc]
  case _ => simp [next_step, h, apply_channel_token, hc]
  case _ => simp [next_step, h, apply_channel_token, hc]
  case _ => simp [next_step, h, apply_channel_token, hc]
  case _ => simp [next_step, h, apply_channel_token, hc]
  case _ => simp [next_step, h, apply_channel_token, hc]
  case _ => simp [next_step, h, apply_channel_token, hc]
  case _ => simp [next_step, h, apply_channel_token, hc]
  case _ => intro ht; simp [next_step, h, apply_channel_token, hc, ht]
  case _ => intro ht; simp [next_step, h, apply_channel_token, hc, ht]
  case _ => intro ht; simp [next_step, h, apply_channel_token, hc, ht]
  case _ => simp [next_step, h, apply_channel_token, hc]

def appC5M : App := { initialApp env₀ false with
  step := .ChannelAuxEntry,
  channel_choice := .Matrix }

/-- C5 amended witness: Matrix populated with empty aux gets allow-list
`["*"]`. -/
theorem allowlist_defaults_amended_witness :
    ((next_step env₀ appC5M).channels_config.matrix.map
        MatrixConfig.allowed_users) = some ["*"] :=
  (allowlist_defaults_amended env₀ appC5M rfl).1 rfl

/-! ## C3: the `ChannelSelection` transition -/

/-- The spec's index-to-channel mapping: "0 = CliOnly through 16 = Nostr". -/
def specChannelOfIndex (n : Nat) : ChannelChoice :=
  match n with
  | 0 => .CliOnly
  | 1 => .Telegram
  | 2 => .Discord
  | 3 => .Slack
  | 4 => .IMessage
  | 5 => .Matrix
  | 6 => .Signal
  | 7 => .WhatsApp
  | 8 => .Linq
  | 9 => .Irc
  | 10 => .Webhook
  | 11 => .NextcloudTalk
  | 12 => .DingTalk
  | 13 => .QqOfficial
  | 14 => .Lark
  | 15 => .Feishu
  | 16 => .Nostr
  | _ => .CliOnly

def appC3 : App := { initialApp env₀ false with
  step := .ChannelSelection,
  channel_list := some 4 }

/-- C3 counterexample: with IMessage selected (index 4), confirming
`ChannelSelection` transitions to `ChannelAuxEntry`, not to
`ChannelTokenEntry` as the claim states for every non-CliOnly channel. -/
theorem channel_selection_imessage_counterexample :
    (next_step env₀ appC3).channel_choice = .IMessage ∧
      (next_step env₀ appC3).step = .ChannelAuxEntry ∧
      (next_step env₀ appC3).step ≠ .ChannelTokenEntry :=
  ⟨rfl, rfl, by decide⟩

/-- C3 amended: from `ChannelSelection`, advance maps the list index to the
channel variant (0 = CliOnly through 16 = Nostr, out-of-range indices to
CliOnly), resets the channel config to a fresh default with CLI enabled, and
transitions to `TunnelSelection` for CliOnly, to `ChannelAuxEntry` for
IMessage, and to `ChannelTokenEntry` for every other channel (including
Webhook). -/
theorem channel_selection_transition (env : Env) (a : App)
    (h : a.step = .ChannelSelection) :
    (next_step env a).channel_choice = specChannelOfIndex (a.channel_list.getD 0) ∧
    (next_step env a).channels_config = { ChannelsConfig.default with cli := true } ∧
    (next_step env a).step =
      (match specChannelOfIndex (a.channel_list.getD 0) with
       | .CliOnly => .TunnelSelection
       | .IMessage => .ChannelAuxEntry
       | _ => .ChannelTokenEntry) := by
  rcases Nat.lt_or_ge (a.channel_list.getD 0) 17 with hlt | hge
  · interval_cases hn : (a.channel_list.getD 0) <;>
      refine ⟨?_, ?_, ?_⟩ <;>
      simp [next_step, h, apply_channel_choice, specChannelOfIndex, hn]
  · obtain ⟨k, hk⟩ := Nat.exists_eq_add_of_le hge
    rw [Nat.add_comm] at hk
    refine ⟨?_, ?_, ?_⟩ <;>
      simp [next_step, h, apply_channel_choice, specChannelOfIndex, hk]

def appC3w : App := { initialApp env₀ false with
  step := .ChannelSelection,
  channel_list := some 10 }

/-- C3 amended witness: Webhook (index 10) routes to `ChannelTokenEntry`
with the config reset. -/
theorem channel_selection_transition_witness :
    (next_step env₀ appC3w).channel_choice = specChannelOfIndex 10 ∧
    (next_step env₀ appC3w).channels_config
      = { ChannelsConfig.default with cli := true } ∧
    (next_step env₀ appC3w).step =
      (match specChannelOfIndex 10 with
       | .CliOnly => .TunnelSelection
       | .IMessage => .ChannelAuxEntry
       | _ => .ChannelTokenEntry) :=
  channel_selection_transition env₀ appC3w rfl

/-! ## C4: IMessage contacts typed at `ChannelAuxEntry` -/

def appC4 : App := { initialApp env₀ false with
  step := .ChannelAuxEntry,
  channel_choice := .IMessage,
  channels_config := { ChannelsConfig.default with cli := true } }

def keysC4 : List Key := ("alice,bob".data.map Key.char) ++ [Key.enter]

/-- C4: typing `"alice,bob"` at `ChannelAuxEntry` for IMessage and
confirming.  The UI special case routes the typed contacts into the *token*
buffer, but `apply_channel_token` builds `allowed_contacts` from the *aux*
buffer, so the sub-config ends up with no allowed contacts — the typed list
(which parses to `["alice", "bob"]`) is dropped, contradicting the claim
that it becomes the IMessage allow-listed contacts. -/
theorem imessage_contacts_dropped :
    (run_app_loop env₀ appC4 keysC4).1.channels_config.imessage
        = some { allowed_contacts := [] } ∧
      (run_app_loop env₀ appC4 keysC4).1.channel_token_input = "alice,bob" ∧
      (run_app_loop env₀ appC4 keysC4).1.channel_aux_input = "" ∧
      parse_list_csv "alice,bob" = ["alice", "bob"] :=
  ⟨rfl, rfl, rfl, rfl⟩

/-! ## C1: cancellation (Esc) and Synthesis -/

/-- C1: pressing Esc at the `Welcome` step makes the event loop return
cleanly, after which `run_wizard` still invokes `finalize_config`: Synthesis
runs, a configuration document is assembled, and it is handed to the
persistence collaborator (one save attempt, successful result) — contradicting
the claim that cancellation terminates the session without running
Synthesis. -/
theorem esc_cancel_still_runs_finalize :
    (run_wizard env₀ false [Key.esc]).isSome = true ∧
      ((run_wizard env₀ false [Key.esc]).map
          (fun o => o.saveAttempts.length)) = some 1 ∧
      ((run_wizard env₀ false [Key.esc]).map
          (fun o => o.result.isOk)) = some true :=
  ⟨rfl, rfl, rfl⟩

/-! ## C10: model catalog fetch failure -/

def envC10 : Env := { env₀ with
  curatedModels := fun _ => [("modelA", "A"), ("modelB", "B")],
  fetchLiveModels := fun _ _ _ => .error "boom",
  defaultModelForProvider := fun _ => "provider-default" }

def appC10 : App := { initialApp env₀ false with provider := "openai" }

/-- C10 counterexample: when the live fetch fails but the provider has
curated models, the model list is the curated entries plus the sentinel —
not a single provider-default entry plus the sentinel. -/
theorem model_fetch_failure_counterexample :
    (prepare_models envC10 appC10).available_models
        = ["modelA", "modelB", CUSTOM_MODEL_SENTINEL] ∧
      (prepare_models envC10 appC10).available_models
        ≠ ["provider-default", CUSTOM_MODEL_SENTINEL] ∧
      (prepare_models envC10 appC10).status_message
        = "Live fetch unavailable: boom" :=
  ⟨rfl, by decide, rfl⟩

/-- C10 amended: if the live model-catalog fetch fails, the session continues
rather than aborting — the error is recorded as a status message, loading
ends, and the model list falls back to the curated entries (or to a single
provider-default entry when no curated entries exist), with the custom-model
sentinel as the final entry. -/
theorem model_fetch_failure_fallback (env : Env) (a : App) (e : String)
    (h : env.fetchLiveModels a.provider a.api_key a.api_url = .error e) :
    (prepare_models env a).status_message = "Live fetch unavailable: " ++ e ∧
    (prepare_models env a).loading = false ∧
    (prepare_models env a).model_list = some 0 ∧
    (prepare_models env a).available_models
      = (if curatedCandidates env a.provider = []
         then [env.defaultModelForProvider a.provider]
         else curatedCandidates env a.provider) ++ [CUSTOM_MODEL_SENTINEL] := by
  refine ⟨?_, ?_, ?_, ?_⟩ <;>
    simp only [prepare_models, h]
  split <;> simp_all [btreeInsert]

/-- C10 amended witness: instantiated at the concrete fixture environment. -/
theorem model_fetch_failure_fallback_witness :
    (prepare_models envC10 appC10).status_message
        = "Live fetch unavailable: " ++ "boom" ∧
      (prepare_models envC10 appC10).loading = false ∧
      (prepare_models envC10 appC10).model_list = some 0 ∧
      (prepare_models envC10 appC10).available_models
        = (if curatedCandidates envC10 appC10.provider = []
           then [envC10.defaultModelForProvider appC10.provider]
           else curatedCandidates envC10 appC10.provider)
            ++ [CUSTOM_MODEL_SENTINEL] :=
  model_fetch_failure_fallback envC10 appC10 "boom" rfl

/-! ## C7 and C8: Synthesis in UpdateProviderOnly mode -/

/-- A successful Synthesis result is exactly the document produced by the
assembly phase: persistence never alters the document. -/
theorem finalize_result_ok_eq (env : Env) (a : App) (cfg : Config)
    (h : (finalize_config env a).result = .ok cfg) :
    assemble_config env a = .ok cfg := by
  unfold finalize_config at h
  cases ha : assemble_config env a with
  | error e => rw [ha] at h; simp at h
  | ok c =>
    rw [ha] at h
    repeat' split at h
    all_goals simp_all

/-- C7: Synthesis in UpdateProviderOnly mode against an existing, parseable
document leaves its channel, hardware, memory, tunnel, composio and secrets
sections unchanged, while overwriting provider, model, api url, api key,
workspace path and config path. -/
theorem update_provider_only_frame (env : Env) (a : App) (raw : String)
    (loaded cfg : Config)
    (hm : a.mode = .UpdateProviderOnly)
    (hx : env.fileExists a.config_path = true)
    (hr : env.readFile a.config_path = .ok raw)
    (hp : env.parseConfig raw = .ok loaded)
    (hok : (finalize_config env a).result = .ok cfg) :
    cfg.channels_config = loaded.channels_config ∧
    cfg.hardware = loaded.hardware ∧
    cfg.memory = loaded.memory ∧
    cfg.tunnel = loaded.tunnel ∧
    cfg.composio = loaded.composio ∧
    cfg.secrets = loaded.secrets ∧
    cfg.default_provider
      = some (if strTrim a.provider = "" then "openrouter"
              else strTrim a.provider) ∧
    cfg.default_model
      = some (if strTrim a.model = ""
              then env.defaultModelForProvider
                (if strTrim a.provider = "" then "openrouter"
                 else strTrim a.provider)
              else strTrim a.model) ∧
    cfg.api_url = a.api_url ∧
    cfg.api_key = (if strTrim a.api_key = "" then none
                   else some (strTrim a.api_key)) ∧
    cfg.workspace_dir = a.workspace_dir ∧
    cfg.config_path = a.config_path := by
  have ha := finalize_result_ok_eq env a cfg hok
  unfold assemble_config at ha
  simp [hm, hx, hr, hp] at ha
  subst ha
  simp

def loadedC7 : Config := { config₀ with
  default_provider := some "old-provider",
  api_key := some "old-key",
  secrets := { encrypt := true },
  channels_config := { ChannelsConfig.default with
    telegram := some {
      bot_token := "t", allowed_users := ["u"],
      stream_mode := .defaultMode, draft_update_interval_ms := 500,
      interrupt_on_new_message := true, mention_only := true } } }

def envC7 : Env := { env₀ with
  fileExists := fun _ => true,
  readFile := fun _ => .ok "rawtoml",
  parseConfig := fun _ => .ok loadedC7 }

def appC7 : App := { initialApp env₀ false with
  mode := .UpdateProviderOnly,
  provider := "openai",
  model := "gpt-x",
  api_key := "sk-new" }

def cfgC7 : Config := { loadedC7 with
  workspace_dir := appC7.workspace_dir,
  config_path := appC7.config_path,
  default_provider := some "openai",
  default_model := some "gpt-x",
  api_url := none,
  api_key := some "sk-new" }

/-- C7 witness: the frame property instantiated on a concrete existing
document. -/
theorem update_provider_only_frame_witness :
    cfgC7.channels_config = loadedC7.channels_config ∧
    cfgC7.hardware = loadedC7.hardware ∧
    cfgC7.memory = loadedC7.memory ∧
    cfgC7.tunnel = loadedC7.tunnel ∧
    cfgC7.composio = loadedC7.composio ∧
    cfgC7.secrets = loadedC7.secrets ∧
    cfgC7.default_provider
      = some (if strTrim appC7.provider = "" then "openrouter"
              else strTrim appC7.provider) ∧
    cfgC7.default_model
      = some (if strTrim appC7.model = ""
              then envC7.defaultModelForProvider
                (if strTrim appC7.provider = "" then "openrouter"
                 else strTrim appC7.provider)
              else strTrim appC7.model) ∧
    cfgC7.api_url = appC7.api_url ∧
    cfgC7.api_key = (if strTrim appC7.api_key = "" then none
                     else some (strTrim appC7.api_key)) ∧
    cfgC7.workspace_dir = appC7.workspace_dir ∧
    cfgC7.config_path = appC7.config_path :=
  update_provider_only_frame envC7 appC7 "rawtoml" loadedC7 cfgC7
    rfl rfl rfl rfl rfl

/-- C8: in UpdateProviderOnly mode, if the existing configuration file cannot
be read, or can be read but not parsed, Synthesis aborts with an error
surfaced to the caller and no document — not even a partial one — is handed
to the persistence collaborator. -/
theorem upo_load_failure_aborts_without_persisting (env : Env) (a : App)
    (hm : a.mode = .UpdateProviderOnly)
    (hx : env.fileExists a.config_path = true)
    (hf : (∃ e, env.readFile a.config_path = .error e) ∨
          (∃ raw e, env.readFile a.config_path = .ok raw ∧
             env.parseConfig raw = .error e)) :
    (∃ msg, (finalize_config env a).result = .error msg) ∧
      (finalize_config env a).saveAttempts = [] := by
  have hassemble : ∃ msg, assemble_config env a = .error msg := by
    rcases hf with ⟨e, he⟩ | ⟨raw, e, hr, hp⟩
    · exact ⟨"Failed to read existing config at " ++ a.config_path ++ ": " ++ e,
        by unfold assemble_config; simp [hm, hx, he]⟩
    · exact ⟨"Failed to parse existing config at " ++ a.config_path ++ ": " ++ e,
        by unfold assemble_config; simp [hm, hx, hr, hp]⟩
  obtain ⟨msg, hmsg⟩ := hassemble
  unfold finalize_config
  rw [hmsg]
  exact ⟨⟨msg, rfl⟩, rfl⟩

def envC8 : Env := { env₀ with
  fileExists := fun _ => true,
  readFile := fun _ => .error "permission denied" }

def appC8 : App := { initialApp env₀ false with
  mode := .UpdateProviderOnly }

/-- C8 witness: an unreadable existing file aborts Synthesis with no save
attempt. -/
theorem upo_load_failure_aborts_without_persisting_witness :
    (∃ msg, (finalize_config envC8 appC8).result = .error msg) ∧
      (finalize_config envC8 appC8).saveAttempts = [] :=
  upo_load_failure_aborts_without_persisting envC8 appC8 rfl rfl
    (Or.inl ⟨"permission denied", rfl⟩)

/-! ## C2: the step graph reaches `Done` and has no non-trivial cycles -/

/-- Position of a step in the wizard's topological order. -/
def stepRank : WizardStep → Nat
  | .Welcome => 0
  | .ConfigModeSelection => 1
  | .WorkspaceSetup => 2
  | .ProviderTierSelection => 3
  | .ProviderSelection => 4
  | .CustomProviderUrlEntry => 5
  | .ProviderEndpointEntry => 6
  | .ApiKeyEntry => 7
  | .ModelSelection => 8
  | .ModelCustomEntry => 9
  | .ChannelSelection => 10
  | .ChannelTokenEntry => 11
  | .ChannelAuxEntry => 12
  | .TunnelSelection => 13
  | .TunnelPrimaryEntry => 14
  | .TunnelSecondaryEntry => 15
  | .ToolModeSelection => 16
  | .ComposioApiKeyEntry => 17
  | .SecretsEncryptChoice => 18
  | .HardwareSelection => 19
  | .MemorySelection => 20
  | .ProjectUserEntry => 21
  | .ProjectTimezoneEntry => 22
  | .ProjectAgentEntry => 23
  | .ProjectStyleSelection => 24
  | .ProjectStyleCustomEntry => 25
  | .Confirmation => 26
  | .Done => 27

/-- The situations in which `next_step` re-enters the current step: a
required text input is empty after normalization, or a list selection is out
of range. -/
def staysOnInvalidInput (a : App) : Prop :=
  (a.step = .ProviderSelection ∧
     a.current_tier_providers[a.provider_list.getD 0]? = none) ∨
  (a.step = .CustomProviderUrlEntry ∧
     trimEndMatchesSlash (text_value a.custom_provider_url_input) = "") ∨
  (a.step = .ProviderEndpointEntry ∧
     trimEndMatchesSlash (text_value a.provider_endpoint_input) = "") ∨
  (a.step = .ModelSelection ∧
     a.available_models[a.model_list.getD 0]? = none) ∨
  (a.step = .ModelCustomEntry ∧ text_value a.model_custom_input = "")

/-- Every transition from a non-terminal step either strictly increases the
step's rank or is the stay-on-invalid-input self-loop (leaving the whole
state unchanged): the step graph has no other cycles. -/
theorem next_step_progress_or_stay (env : Env) (a : App)
    (h : a.step ≠ .Done) :
    stepRank a.step < stepRank (next_step env a).step ∨
      (next_step env a = a ∧ staysOnInvalidInput a) := by
  cases hstep : a.step
  case Welcome =>
    left; simp only [next_step, hstep]
    split <;> simp [stepRank]
  case ConfigModeSelection =>
    left; simp [next_step, hstep, stepRank]
  case WorkspaceSetup =>
    left; simp [next_step, hstep, stepRank]
  case ProviderTierSelection =>
    left; simp only [next_step, hstep]
    split <;> simp [stepRank]
  case ProviderSelection =>
    cases hget : a.current_tier_providers[a.provider_list.getD 0]? with
    | none =>
      right
      refine ⟨?_, Or.inl ⟨hstep, hget⟩⟩
      simp [next_step, hstep, hget]
    | some p =>
      left
      simp only [next_step, hstep, List.get?_eq_getElem?, hget]
      split <;> simp [stepRank]
  case CustomProviderUrlEntry =>
    by_cases hne : trimEndMatchesSlash (text_value a.custom_provider_url_input) = ""
    · right
      refine ⟨?_, Or.inr (Or.inl ⟨hstep, hne⟩)⟩
      simp [next_step, hstep, hne]
    · left; simp [next_step, hstep, hne, stepRank]
  case ProviderEndpointEntry =>
    by_cases hne : trimEndMatchesSlash (text_value a.provider_endpoint_input) = ""
    · right
      refine ⟨?_, Or.inr (Or.inr (Or.inl ⟨hstep, hne⟩))⟩
      simp [next_step, hstep, hne]
    · left; simp [next_step, hstep, hne, stepRank]
  case ApiKeyEntry =>
    left; simp [next_step, hstep, stepRank]
  case ModelSelection =>
    cases hget : a.available_models[a.model_list.getD 0]? with
    | none =>
      right
      refine ⟨?_, Or.inr (Or.inr (Or.inr (Or.inl ⟨hstep, hget⟩)))⟩
      simp [next_step, hstep, hget]
    | some sel =>
      left
      simp only [next_step, hstep, List.get?_eq_getElem?, hget]
      split <;> simp [stepRank]
  case ModelCustomEntry =>
    by_cases hne : text_value a.model_custom_input = ""
    · right
      refine ⟨?_, Or.inr (Or.inr (Or.inr (Or.inr ⟨hstep, hne⟩)))⟩
      simp [next_step, hstep, hne]
    · left; simp [next_step, hstep, hne, stepRank]
  case ChannelSelection =>
    left; simp only [next_step, hstep]
    cases hc : (apply_channel_choice a).channel_choice <;>
      simp [hc, stepRank]
  case ChannelTokenEntry =>
    left; simp only [next_step, hstep]
    cases hc : a.channel_choice <;> simp [hc, stepRank]
  case ChannelAuxEntry =>
    left; simp [next_step, hstep, stepRank]
  case TunnelSelection =>
    left; simp only [next_step, hstep]
    cases ht : (apply_tunnel_choice a).tunnel_choice <;> simp [ht, stepRank]
  case TunnelPrimaryEntry =>
    left; simp only [next_step, hstep]
    cases ht : a.tunnel_choice <;> simp [ht, stepRank]
  case TunnelSecondaryEntry =>
    left; simp [next_step, hstep, stepRank]
  case ToolModeSelection =>
    left; simp only [next_step, hstep]
    split <;> simp [stepRank]
  case ComposioApiKeyEntry =>
    left; simp [next_step, hstep, stepRank]
  case SecretsEncryptChoice =>
    left; simp [next_step, hstep, stepRank]
  case HardwareSelection =>
    left; simp [next_step, hstep, stepRank]
  case MemorySelection =>
    left; simp [next_step, hstep, stepRank]
  case ProjectUserEntry =>
    left; simp [next_step, hstep, stepRank]
  case ProjectTimezoneEntry =>
    left; simp [next_step, hstep, stepRank]
  case ProjectAgentEntry =>
    left; simp [next_step, hstep, stepRank]
  case ProjectStyleSelection =>
    left; simp only [next_step, hstep]
    split <;> simp [stepRank]
  case ProjectStyleCustomEntry =>
    left; simp [next_step, hstep, stepRank]
  case Confirmation =>
    left; simp [next_step, hstep, stepRank]
  case Done => exact absurd hstep h

/-- An answer store whose text inputs and selections let every confirmation
succeed: the "sequence of valid confirmed inputs" of the claim. -/
def Valid (a : App) : Prop :=
  trimEndMatchesSlash (text_value a.custom_provider_url_input) ≠ "" ∧
  trimEndMatchesSlash (text_value a.provider_endpoint_input) ≠ "" ∧
  text_value a.model_custom_input ≠ "" ∧
  a.provider_list = some 0 ∧
  (a.step = .ProviderSelection → a.current_tier_providers ≠ []) ∧
  (a.step = .ModelSelection → a.model_list = some 0 ∧ a.available_models ≠ [])

/-- Under valid inputs, every non-terminal transition strictly increases the
step rank and preserves validity. -/
theorem valid_progress (env : Env) (a : App) (hV : Valid a)
    (h : a.step ≠ .Done) :
    stepRank a.step < stepRank (next_step env a).step ∧
      Valid (next_step env a) := by
  obtain ⟨v1, v2, v3, v4, v5, v6⟩ := hV
  cases hstep : a.step
  case Welcome =>
    constructor
    · simp only [next_step, hstep]; split <;> simp [stepRank]
    · simp only [next_step, hstep]; split <;> simp [Valid, v1, v2, v3, v4]
  case ConfigModeSelection =>
    constructor
    · simp [next_step, hstep, stepRank]
    · simp [next_step, hstep, Valid, v1, v2, v3, v4]
  case WorkspaceSetup =>
    constructor
    · simp [next_step, hstep, stepRank]
    · simp [next_step, hstep, Valid, v1, v2, v3, v4]
  case ProviderTierSelection =>
    constructor
    · simp only [next_step, hstep]; split <;> simp [stepRank]
    · simp only [next_step, hstep]
      split <;> simp_all [Valid, v1, v2, v3, v4]
  case ProviderSelection =>
    have hne : a.current_tier_providers ≠ [] := v5 hstep
    cases hl : a.current_tier_providers with
    | nil => exact absurd hl hne
    | cons hd tl =>
      constructor
      · simp only [next_step, hstep, v4, hl, Option.getD_some,
          List.get?_cons_zero]
        split <;> simp [stepRank]
      · simp only [next_step, hstep, v4, hl, Option.getD_some,
          List.get?_cons_zero]
        split <;> simp [Valid, v1, v2, v3, v4]
  case CustomProviderUrlEntry =>
    constructor
    · simp [next_step, hstep, v1, stepRank]
    · simp [next_step, hstep, v1, Valid, v2, v3, v4]
  case ProviderEndpointEntry =>
    constructor
    · simp [next_step, hstep, v2, stepRank]
    · simp [next_step, hstep, v2, Valid, v1, v3, v4]
  case ApiKeyEntry =>
    constructor
    · simp [next_step, hstep, stepRank]
    · simp [next_step, hstep, prepare_models, Valid, v1, v2, v3, v4]
  case ModelSelection =>
    obtain ⟨hml, hne⟩ := v6 hstep
    cases hl : a.available_models with
    | nil => exact absurd hl hne
    | cons hd tl =>
      constructor
      · simp only [next_step, hstep, hml, hl, Option.getD_some,
          List.get?_cons_zero]
        split <;> simp [stepRank]
      · simp only [next_step, hstep, hml, hl, Option.getD_some,
          List.get?_cons_zero]
        split <;> simp [Valid, v1, v2, v3, v4]
  case ModelCustomEntry =>
    constructor
    · simp [next_step, hstep, v3, stepRank]
    · simp [next_step, hstep, v3, Valid, v1, v2, v4]
  case ChannelSelection =>
    constructor
    · simp only [next_step, hstep]
      cases hc : (apply_channel_choice a).channel_choice <;> simp [hc, stepRank]
    · simp only [next_step, hstep]
      cases hc : (apply_channel_choice a).channel_choice <;>
        simp [hc, Valid, apply_channel_choice, v1, v2, v3, v4]
  case ChannelTokenEntry =>
    constructor
    · simp only [next_step, hstep]
      cases hc : a.channel_choice <;> simp [hc, stepRank]
    · simp only [next_step, hstep]
      cases hc : a.channel_choice <;> simp [hc, Valid, v1, v2, v3, v4]
  case ChannelAuxEntry =>
    constructor
    · simp [next_step, hstep, stepRank]
    · simp only [next_step, hstep]
      cases hc : a.channel_choice <;>
        simp [Valid, apply_channel_token, hc, v1, v2, v3, v4] <;>
        split <;> simp [v1, v2, v3, v4]
  case TunnelSelection =>
    constructor
    · simp only [next_step, hstep]
      cases ht : (apply_tunnel_choice a).tunnel_choice <;> simp [ht, stepRank]
    · simp only [next_step, hstep]
      cases ht : (apply_tunnel_choice a).tunnel_choice <;>
        simp [ht, Valid, apply_tunnel_choice, v1, v2, v3, v4]
  case TunnelPrimaryEntry =>
    constructor
    · simp only [next_step, hstep]
      cases ht : a.tunnel_choice <;> simp [ht, stepRank]
    · simp only [next_step, hstep]
      cases ht : a.tunnel_choice <;> simp [ht, Valid, v1, v2, v3, v4]
  case TunnelSecondaryEntry =>
    constructor
    · simp [next_step, hstep, stepRank]
    · simp [next_step, hstep, Valid, v1, v2, v3, v4]
  case ToolModeSelection =>
    constructor
    · simp only [next_step, hstep]; split <;> simp [stepRank]
    · simp only [next_step, hstep]; split <;> simp [Valid, v1, v2, v3, v4]
  case ComposioApiKeyEntry =>
    constructor
    · simp [next_step, hstep, stepRank]
    · simp [next_step, hstep, Valid, v1, v2, v3, v4]
  case SecretsEncryptChoice =>
    constructor
    · simp [next_step, hstep, stepRank]
    · simp [next_step, hstep, Valid, v1, v2, v3, v4]
  case HardwareSelection =>
    constructor
    · simp [next_step, hstep, stepRank]
    · simp [next_step, hstep, Valid, v1, v2, v3, v4]
  case MemorySelection =>
    constructor
    · simp [next_step, hstep, stepRank]
    · simp [next_step, hstep, Valid, v1, v2, v3, v4]
  case ProjectUserEntry =>
    constructor
    · simp [next_step, hstep, stepRank]
    · simp [next_step, hstep, Valid, v1, v2, v3, v4]
  case ProjectTimezoneEntry =>
    constructor
    · simp [next_step, hstep, stepRank]
    · simp [next_step, hstep, Valid, v1, v2, v3, v4]
  case ProjectAgentEntry =>
    constructor
    · simp [next_step, hstep, stepRank]
    · simp [next_step, hstep, Valid, v1, v2, v3, v4]
  case ProjectStyleSelection =>
    constructor
    · simp only [next_step, hstep]; split <;> simp [stepRank]
    · simp only [next_step, hstep]; split <;> simp [Valid, v1, v2, v3, v4]
  case ProjectStyleCustomEntry =>
    constructor
    · simp [next_step, hstep, stepRank]
    · simp [next_step, hstep, Valid, v1, v2, v3, v4]
  case Confirmation =>
    constructor
    · simp [next_step, hstep, stepRank]
    · simp [next_step, hstep, Valid, v1, v2, v3, v4]
  case Done => exact absurd hstep h

theorem next_step_done_fixed (env : Env) (a : App) (h : a.step = .Done) :
    next_step env a = a := by
  simp [next_step, h]

theorem stepRank_le (s : WizardStep) : stepRank s ≤ 27 := by
  cases s <;> simp [stepRank]

theorem stepRank_eq_top (s : WizardStep) (h : stepRank s = 27) : s = .Done := by
  cases s <;> simp_all [stepRank]

/-- Iterating the transition from any valid state reaches `Done` once the
iteration count covers the remaining rank distance. -/
theorem valid_reach (env : Env) :
    ∀ (n : Nat) (a : App), Valid a → 27 ≤ n + stepRank a.step →
      ((next_step env)^[n] a).step = .Done := by
  intro n
  induction n with
  | zero =>
    intro a _ hle
    simp only [Nat.zero_add] at hle
    simp only [Function.iterate_zero_apply]
    exact stepRank_eq_top a.step (Nat.le_antisymm (stepRank_le a.step) hle)
  | succ n ih =>
    intro a hV hle
    rw [Function.iterate_succ_apply]
    by_cases hd : a.step = .Done
    · rw [next_step_done_fixed env a hd]
      refine ih a hV ?_
      rw [hd]
      simp [stepRank]
    · obtain ⟨hrank, hV'⟩ := valid_progress env a hV hd
      refine ih (next_step env a) hV' ?_
      omega

/-- A concrete answer store with every confirmation input valid, pinned at an
arbitrary step. -/
def baseValidApp (s : WizardStep) : App := { initialApp env₀ false with
  step := s,
  custom_provider_url_input := "https://api.example.com",
  provider_endpoint_input := "http://localhost:8000",
  model_custom_input := "my-model",
  provider_list := some 0,
  current_tier_providers := [("openai", "OpenAI")],
  model_list := some 0,
  available_models := ["m1"] }

theorem baseValidApp_valid (s : WizardStep) : Valid (baseValidApp s) := by
  refine ⟨?_, ?_, ?_, rfl, fun _ => ?_, fun _ => ⟨rfl, ?_⟩⟩ <;>
    · simp only [baseValidApp]
      decide

/-- C2: for every `WizardStep` other than `Done` there is an answer store at
that step from which 27 applications of `advance` (`next_step`) under valid
confirmed inputs land on `Done`, and — for any environment and any state —
a transition either strictly climbs the step order or is the
stay-on-invalid-input self-loop, so the step graph has no other cycles. -/
theorem wizard_reaches_done (env : Env) :
    (∀ s : WizardStep, s ≠ .Done →
        ∃ a : App, a.step = s ∧ ((next_step env)^[27] a).step = .Done) ∧
    (∀ a : App, a.step ≠ .Done →
        stepRank a.step < stepRank (next_step env a).step ∨
          (next_step env a = a ∧ staysOnInvalidInput a)) := by
  constructor
  · intro s _
    exact ⟨baseValidApp s, rfl,
      valid_reach env 27 (baseValidApp s) (baseValidApp_valid s)
        (Nat.le_add_right 27 _)⟩
  · intro a ha
    exact next_step_progress_or_stay env a ha

/-- C2 witness: instantiated at the fixture environment, the `Welcome` step,
and a concrete valid state. -/
theorem wizard_reaches_done_witness :
    (∃ a : App, a.step = .Welcome ∧ ((next_step env₀)^[27] a).step = .Done) ∧
      (stepRank (baseValidApp .Welcome).step <
         stepRank (next_step env₀ (baseValidApp .Welcome)).step ∨
        (next_step env₀ (baseValidApp .Welcome) = baseValidApp .Welcome ∧
          staysOnInvalidInput (baseValidApp .Welcome))) :=
  ⟨(wizard_reaches_done env₀).1 .Welcome (by decide),
   (wizard_reaches_done env₀).2 (baseValidApp .Welcome) (by decide)⟩
